import Mathlib

/-!
Verification of the pattern-detection core of the `ral` repository
(`duck_hunter.py` and `consecutive_sun_filter.py`) against its
natural-language specification.

The embedding models prices, volumes and indicator values as exact
rationals, pandas `NaN` at not-yet-full rolling windows as `Option.none`
(any comparison touching an absent value is `false`, as in pandas), and
the per-instrument analysis functions as pure functions over `List Bar`.
-/

namespace Ral

set_option maxRecDepth 1000000

/-- One trading day for one instrument, the canonical row schema
`date, open, high, low, close, volume, pct_chg, turnover`.
The field `open_` models the source column `open` (a keyword in Lean). -/
structure Bar where
  date : Nat
  open_ : ℚ
  high : ℚ
  low : ℚ
  close : ℚ
  volume : ℚ
  pct_chg : ℚ
  turnover : ℚ
deriving DecidableEq

instance : Inhabited Bar := ⟨⟨0, 0, 0, 0, 0, 0, 0, 0⟩⟩

/-- Sum of a list of rationals. -/
def listSum : List ℚ → ℚ
  | [] => 0
  | x :: xs => x + listSum xs

/-- Maximum of a list of rationals, `none` on the empty list
(pandas `Series.max()` of an empty frame is `NaN`). -/
def maxListQ : List ℚ → Option ℚ
  | [] => none
  | x :: xs =>
    match maxListQ xs with
    | none => some x
    | some m => some (max x m)

/-- Minimum of a list of rationals, `none` on the empty list. -/
def minListQ : List ℚ → Option ℚ
  | [] => none
  | x :: xs =>
    match minListQ xs with
    | none => some x
    | some m => some (min x m)

/-- Strict greater-than on possibly-absent values; any comparison with
`NaN` is false in pandas, hence `false` whenever an operand is `none`. -/
def optGT : Option ℚ → Option ℚ → Bool
  | some a, some b => decide (b < a)
  | _, _ => false

/-- Greater-or-equal on possibly-absent values, `false` on `none`. -/
def optGE : Option ℚ → Option ℚ → Bool
  | some a, some b => decide (b ≤ a)
  | _, _ => false

/-- Strict less-than on possibly-absent values, `false` on `none`. -/
def optLT : Option ℚ → Option ℚ → Bool
  | some a, some b => decide (a < b)
  | _, _ => false

/-- Less-or-equal on possibly-absent values, `false` on `none`. -/
def optLE : Option ℚ → Option ℚ → Bool
  | some a, some b => decide (a ≤ b)
  | _, _ => false

/-- Value at position `i` of `series.rolling(w).mean()`: the arithmetic
mean of the `w` entries ending at `i`, absent while the window is not
yet full (or `i` is out of range). -/
def ma (w : Nat) (xs : List ℚ) (i : Nat) : Option ℚ :=
  if w ≤ i + 1 ∧ i < xs.length then
    some (listSum ((xs.drop (i + 1 - w)).take w) / (w : ℚ))
  else none

/-- Smoothing factor `α = 2/(span+1)` of `ewm(span=..., adjust=False)`. -/
def alphaOf (span : ℚ) : ℚ := 2 / (span + 1)

/-- Tail of the `ewm(adjust=False).mean()` recurrence: given the previous
smoothed value, emit `α·x + (1−α)·prev` for each remaining entry. -/
def ewmFrom (a prev : ℚ) : List ℚ → List ℚ
  | [] => []
  | x :: xs => (a * x + (1 - a) * prev) :: ewmFrom a (a * x + (1 - a) * prev) xs

/-- `series.ewm(span=span, adjust=False).mean()`: `ema[0] = x[0]`,
`ema[i] = α·x[i] + (1−α)·ema[i−1]`. -/
def ewmList (span : ℚ) : List ℚ → List ℚ
  | [] => []
  | x :: xs => x :: ewmFrom (alphaOf span) x xs

/-- The `dif` column: `ewm(span=12) − ewm(span=26)`, pointwise. -/
def difList (xs : List ℚ) : List ℚ :=
  List.zipWith (fun a b => a - b) (ewmList 12 xs) (ewmList 26 xs)

/-- The `dea` column: `dif.ewm(span=9, adjust=False).mean()`. -/
def deaList (xs : List ℚ) : List ℚ := ewmList 9 (difList xs)

/-- The `macd` column: `(dif − dea) * 2`, pointwise. -/
def macdList (xs : List ℚ) : List ℚ :=
  List.zipWith (fun d e => (d - e) * 2) (difList xs) (deaList xs)

/-- Reference exponential moving average, written as the specification
states it: `ema[0] = close[0]`, `ema[i] = α·close[i] + (1−α)·ema[i−1]`
with `α = 2/(span+1)`, defined from index 0 with no warm-up gap. -/
def emaSpec (x : Nat → ℚ) (span : ℚ) : Nat → ℚ
  | 0 => x 0
  | i + 1 => 2 / (span + 1) * x (i + 1) + (1 - 2 / (span + 1)) * emaSpec x span i

/-- Reference `dif[i] = ema(fast 12)[i] − ema(slow 26)[i]`. -/
def difSpec (x : Nat → ℚ) (i : Nat) : ℚ := emaSpec x 12 i - emaSpec x 26 i

/-- Reference `dea[i] = ema(dif, span 9)[i]`. -/
def deaSpec (x : Nat → ℚ) (i : Nat) : ℚ := emaSpec (difSpec x) 9 i

/-- Reference `macd[i] = 2·(dif[i] − dea[i])`. -/
def macdSpec (x : Nat → ℚ) (i : Nat) : ℚ := 2 * (difSpec x i - deaSpec x i)

/-- Index of the maximum of a list of rationals, first occurrence on
ties: the documented semantics of `numpy`/`pandas` `argmax`, used by the
consecutive-sun matcher's accumulation-peak search. -/
def argmaxQ : List ℚ → Nat
  | [] => 0
  | [_] => 0
  | x :: y :: ys =>
    if (y :: ys).getD (argmaxQ (y :: ys)) 0 ≤ x then 0 else argmaxQ (y :: ys) + 1

/-- Projection of a series to its `close` column. -/
def closesOf (df : List Bar) : List ℚ := df.map Bar.close

/-- Projection of a series to its `volume` column. -/
def volsOf (df : List Bar) : List ℚ := df.map Bar.volume

/-- The most recent bar, `df.iloc[-1]`. -/
def currBar (df : List Bar) : Bar := df.getLastD default

/-! ### ConsecutiveSunPatternMatcher (`is_consecutive_sun_model`) -/

/-- `df['close'].iloc[-1]`, the most recent close. -/
def lastClose (df : List Bar) : ℚ := (df.getLastD default).close

/-- The price-band filter of the consecutive-sun matcher:
`5.0 <= last close <= 20.0`, inclusive at both edges. -/
def priceBandOk (df : List Bar) : Bool :=
  decide (5 ≤ lastClose df ∧ lastClose df ≤ 20)

/-- `data = df.tail(10)`: the last 10 bars. -/
def sunWindow (df : List Bar) : List Bar := df.drop (df.length - 10)

/-- Volumes of `lookback_data = data.iloc[:-1]`, the 9-bar lookback. -/
def lookbackVols (df : List Bar) : List ℚ := ((sunWindow df).dropLast).map Bar.volume

/-- `max_vol_idx = lookback_data['volume'].argmax()`. -/
def peakIdx (df : List Bar) : Nat := argmaxQ (lookbackVols df)

/-- `wash_zone = data.iloc[max_vol_idx + 1 : -1]`: the bars strictly
between the volume peak and the most recent bar. -/
def washZone (df : List Bar) : List Bar :=
  ((sunWindow df).drop (peakIdx df + 1)).dropLast

/-- The consecutive-sun ("连阳缩倍量") matcher, translated from
`is_consecutive_sun_model` in `consecutive_sun_filter.py`. -/
def is_consecutive_sun_model (df : List Bar) : Bool :=
  if df.length < 15 then false
  else if priceBandOk df then
    let p := peakIdx df
    let maxVol := (lookbackVols df).getD p 0
    let dist := (lookbackVols df).length - p
    if ¬(1 ≤ dist ∧ dist ≤ 4) then false
    else if ((sunWindow df).getD p default).close ≤ ((sunWindow df).getD p default).open_ then false
    else if washZone df = [] then false
    else if maxVol * (1 / 2) < ((minListQ ((washZone df).map Bar.volume)).getD 0) then false
    else
      let today := (sunWindow df).getD 9 default
      let yesterday := (sunWindow df).getD 8 default
      decide (today.open_ < today.close) &&
      decide (yesterday.volume * (9 / 5) < today.volume) &&
      decide (((maxListQ ((washZone df).map Bar.close)).getD 0) ≤ today.close)
  else false

/-! ### DuckHeadPatternMatcher (`analyze_logic`) -/

/-- `curr['close'] > curr['ma5'] > curr['ma10']`. -/
def basicTrend (df : List Bar) : Bool :=
  optGT (some (currBar df).close) (ma 5 (closesOf df) (df.length - 1)) &&
  optGT (ma 5 (closesOf df) (df.length - 1)) (ma 10 (closesOf df) (df.length - 1))

/-- `curr['ma5'] > prev['ma5']`. -/
def basicSlope (df : List Bar) : Bool :=
  optGT (ma 5 (closesOf df) (df.length - 1)) (ma 5 (closesOf df) (df.length - 2))

/-- `curr['volume'] > curr['vol_ma5']*1.2 or
(curr['close'] >= curr['ma10'] and curr['volume'] <= curr['vol_ma5'])`. -/
def basicVol (df : List Bar) : Bool :=
  optGT (some (currBar df).volume) ((ma 5 (volsOf df) (df.length - 1)).map (fun v => v * (6 / 5))) ||
  (optGE (some (currBar df).close) (ma 10 (closesOf df) (df.length - 1)) &&
   optLE (some (currBar df).volume) (ma 5 (volsOf df) (df.length - 1)))

/-- Gate 2 (Tier A): all three base-strength conditions. -/
def gate2 (df : List Bar) : Bool := basicTrend df && basicSlope df && basicVol df

/-- The `dif` value at index `i` of the series. -/
def difAt (df : List Bar) (i : Nat) : ℚ := (difList (closesOf df)).getD i 0

/-- The `macd` value at index `i` of the series. -/
def macdAt (df : List Bar) (i : Nat) : ℚ := (macdList (closesOf df)).getD i 0

/-- `curr['ma60'] > df.iloc[-5]['ma60']`: note `df.iloc[-5]` is index
`n−5`, the bar 4 positions before the current bar `n−1`. -/
def aaTrend (df : List Bar) : Bool :=
  optGT (ma 60 (closesOf df) (df.length - 1)) (ma 60 (closesOf df) (df.length - 5))

/-- `curr['macd'] > prev['macd']`. -/
def aaMacd (df : List Bar) : Bool :=
  decide (macdAt df (df.length - 2) < macdAt df (df.length - 1))

/-- Gate 3 (Tier AA): long-term-average and momentum conditions. -/
def gate3 (df : List Bar) : Bool := aaTrend df && aaMacd df

/-- `recent_20 = df.iloc[-20:-1]`: the 19 bars at positions n−20 … n−2. -/
def recent20 (df : List Bar) : List Bar := (df.drop (df.length - 20)).dropLast

/-- `recent_10 = df.iloc[-10:-1]`: the 9 bars at positions n−10 … n−2. -/
def recent10 (df : List Bar) : List Bar := (df.drop (df.length - 10)).dropLast

/-- `recent_20['high'].max() > curr['ma60'] * 1.08`. -/
def aaaHead (df : List Bar) : Bool :=
  optGT (maxListQ ((recent20 df).map Bar.high))
    ((ma 60 (closesOf df) (df.length - 1)).map (fun v => v * (27 / 25)))

/-- `recent_10['volume'].min() < curr['vol_ma60'] * 0.8`. -/
def aaaNostril (df : List Bar) : Bool :=
  optLT (minListQ ((recent10 df).map Bar.volume))
    ((ma 60 (volsOf df) (df.length - 1)).map (fun v => v * (4 / 5)))

/-- `curr['dif'] > 0`. -/
def aaaWater (df : List Bar) : Bool := decide (0 < difAt df (df.length - 1))

/-- Gate 4 (Tier AAA): head, nostril and above-water conditions. -/
def gate4 (df : List Bar) : Bool := aaaHead df && aaaNostril df && aaaWater df

/-- Python `round(·, 2)`: round half to even at two decimals. -/
def round2 (q : ℚ) : ℚ :=
  let m := q * 100
  let n : ℤ := ⌊m⌋
  let r : ℤ :=
    if m - n < 1 / 2 then n
    else if 1 / 2 < m - n then n + 1
    else if n % 2 = 0 then n else n + 1
  (r : ℚ) / 100

/-- Decimal rendering of a nonnegative rational with at most two decimal
places followed by a percent sign, modelling the Python f-string
`f"{x}%"` applied to such a float (`10.0` renders as `"10.0%"`,
`9.5` as `"9.5%"`, `3.05` as `"3.05%"`). -/
def fmtPct (q : ℚ) : String :=
  let n : ℤ := ⌊q⌋
  let d1 : ℤ := ⌊(q - (n : ℚ)) * 10⌋
  let d2 : ℤ := ⌊(q - (n : ℚ)) * 100⌋ % 10
  toString n ++ "." ++ (if d2 = 0 then toString d1 else toString d1 ++ toString d2) ++ "%"

/-- Output row of the duck-head matcher. `volQuot` models the source's
`vol_ratio` column, `round(curr['volume'] / curr['vol_ma5'], 2)`; the
`name` column (filled externally) is omitted. -/
structure MatchResult where
  filter_date : Nat
  code : String
  level : String
  price : ℚ
  pct_chg : String
  turnover : String
  volQuot : ℚ
deriving DecidableEq

/-- The tiered duck-head ("老鸭头") matcher, translated from
`analyze_logic` in `duck_hunter.py` (with the CSV loading and the
locale column renaming outside the model). -/
def analyze_logic (code : String) (df : List Bar) : Option MatchResult :=
  if df.length < 180 then none
  else if !(code.startsWith "60" || code.startsWith "00") then none
  else if !(decide (5 ≤ (currBar df).close) && decide ((currBar df).close ≤ 28)) then none
  else if !(decide (3 ≤ (currBar df).pct_chg) && decide (3 < (currBar df).turnover)) then none
  else if gate2 df then
    some ⟨(currBar df).date, code,
          (if gate3 df then (if gate4 df then "AAA" else "AA") else "A"),
          round2 (currBar df).close,
          fmtPct (currBar df).pct_chg,
          fmtPct (currBar df).turnover,
          round2 ((currBar df).volume / ((ma 5 (volsOf df) (df.length - 1)).getD 0))⟩
  else none

/-- Sort key comparison of the external collector,
`res_df.sort_values(by=['level','pct_chg'], ascending=[False,False])`:
both columns hold strings at that point, so the order is lexicographic
string order on `level`, then on the formatted `pct_chg`. -/
def keyLt (a b : MatchResult) : Bool :=
  decide (a.level < b.level) ||
  (decide (a.level = b.level) && decide (a.pct_chg < b.pct_chg))

/-- Insert a row into a descending-by-key sorted list. -/
def insertDesc (r : MatchResult) : List MatchResult → List MatchResult
  | [] => [r]
  | x :: xs => if keyLt r x then x :: insertDesc r xs else r :: x :: xs

/-- The collector's result-table sort: descending by `level` string,
then descending by the `pct_chg` string. -/
def sortResults : List MatchResult → List MatchResult
  | [] => []
  | r :: rs => insertDesc r (sortResults rs)

/-! ### Windows named by the specification for Gate 4 (claim C3) -/

/-- Modelled from the spec: "`recent_20` … the 20 bars ending the bar
before `curr`", i.e. positions n−21 … n−2. -/
def specRecent20 (df : List Bar) : List Bar := (df.drop (df.length - 21)).dropLast

/-- Modelled from the spec: "`recent_10` … the 10 bars ending the bar
before `curr`", i.e. positions n−11 … n−2. -/
def specRecent10 (df : List Bar) : List Bar := (df.drop (df.length - 11)).dropLast

/-- The head condition computed over the spec's literal 20-bar window. -/
def specHead (df : List Bar) : Bool :=
  optGT (maxListQ ((specRecent20 df).map Bar.high))
    ((ma 60 (closesOf df) (df.length - 1)).map (fun v => v * (27 / 25)))

/-- The nostril condition computed over the spec's literal 10-bar window. -/
def specNostril (df : List Bar) : Bool :=
  optLT (minListQ ((specRecent10 df).map Bar.volume))
    ((ma 60 (volsOf df) (df.length - 1)).map (fun v => v * (4 / 5)))

/-! ### Concrete series used by counterexamples and witnesses -/

/-- A featureless bar: all four prices equal to `c`, volume `v`. -/
def flatBar (c v : ℚ) : Bar := ⟨0, c, c, c, c, v, 0, 0⟩

/-- A breakout bar with given close, volume, pct-change and turnover. -/
def surgeBar (c v p t : ℚ) : Bar := ⟨0, c, c, c, c, v, p, t⟩

/-- The last ten bars shared by several duck-head series: closes rising
10.1 … 11.0, a volume dry-up (10) on the third bar, a volume surge
(200) with pct_chg 3.5 and turnover 5 on the last. -/
def risingTail : List Bar :=
  [flatBar (101 / 10) 100, flatBar (102 / 10) 100, flatBar (103 / 10) 10,
   flatBar (104 / 10) 100, flatBar (105 / 10) 100, flatBar (106 / 10) 100,
   flatBar (107 / 10) 100, flatBar (108 / 10) 100, flatBar (109 / 10) 100,
   surgeBar 11 200 (7 / 2) 5]

/-- Like `risingTail` but with no volume dry-up. -/
def risingTailNoDry : List Bar :=
  [flatBar (101 / 10) 100, flatBar (102 / 10) 100, flatBar (103 / 10) 100,
   flatBar (104 / 10) 100, flatBar (105 / 10) 100, flatBar (106 / 10) 100,
   flatBar (107 / 10) 100, flatBar (108 / 10) 100, flatBar (109 / 10) 100,
   surgeBar 11 200 (7 / 2) 5]

/-- A bar whose high (12) pokes above the long-term trend; the "head". -/
def headBar : Bar := ⟨0, 10, 12, 10, 10, 100, 0, 0⟩

/-- A 180-bar series reaching tier AAA: flat at 10 with the head spike
at index 165, then `risingTail` at indices 170 … 179. -/
def aaaSeries : List Bar :=
  List.replicate 165 (flatBar 10 100) ++ [headBar] ++
  List.replicate 4 (flatBar 10 100) ++ risingTail

/-- A 180-bar series with a close spike (40) at index 115, so that
`ma60` at index 174 is large while the `ma60` values at 175 … 179 are
small: Gate 3's actual comparison (index n−5 = 175) passes while the
claimed comparison (index n−6 = 174) fails. -/
def cex1Series : List Bar :=
  List.replicate 115 (flatBar 10 100) ++ [flatBar 40 100] ++
  List.replicate 54 (flatBar 10 100) ++ risingTailNoDry

/-- A bar with a high spike at 13, used at index 159 = n−21. -/
def headBar21 : Bar := ⟨0, 51 / 5, 13, 51 / 5, 51 / 5, 100, 0, 0⟩

/-- A 180-bar series flat at 10.2 whose only head-worthy high (13) sits
at index 159 = n−21: inside the spec's literal 20-bar window, outside
the code's `iloc[-20:-1]` window, so the code stops at tier AA. -/
def cex3Series : List Bar :=
  List.replicate 159 (flatBar (51 / 5) 100) ++ [headBar21] ++
  List.replicate 10 (flatBar (51 / 5) 100) ++ risingTail

/-- A bullish accumulation bar with peak volume 900. -/
def sunPeakBar : Bar := ⟨0, 10, 21 / 2, 10, 21 / 2, 900, 0, 0⟩

/-- A 15-bar series whose volume peak is at window index 8 (`dist = 1`):
step 2 passes but the washout zone is empty. -/
def cex2Sun : List Bar :=
  List.replicate 13 (flatBar 10 100) ++ [sunPeakBar, flatBar 10 50]

/-- A 15-bar series whose volume peak is at window index 7 (`dist = 2`):
the washout zone is the single bar at window index 8. -/
def wit2Sun : List Bar :=
  List.replicate 12 (flatBar 10 100) ++ [sunPeakBar, flatBar 10 50, flatBar 10 60]

/-- A 15-bar series with the maximum lookback volume (900) attained at
window indices 2 and 5. -/
def tieSun : List Bar :=
  List.replicate 5 (flatBar 10 100) ++
  [flatBar 10 100, flatBar 10 100, flatBar 10 900, flatBar 10 100, flatBar 10 100,
   flatBar 10 900, flatBar 10 100, flatBar 10 100, flatBar 10 100, flatBar 10 50]

/-- A 15-bar series whose most recent close is exactly 5. -/
def band5Sun : List Bar := List.replicate 15 (flatBar 5 100)

/-- A 15-bar series whose most recent close is 4.99. -/
def band499Sun : List Bar := List.replicate 15 (flatBar (499 / 100) 100)

/-- A 5-bar series, shorter than both matchers' minimums. -/
def shortSeries : List Bar := List.replicate 5 (flatBar 10 100)

/-- The record returned by the duck-head matcher on `aaaSeries`. -/
def aaaResult : MatchResult := ⟨0, "600000", "AAA", 11, "3.5%", "5.0%", 167 / 100⟩

/-- An output row with tier AA and the given percent change, formatted as
the collector formats it before sorting. -/
def mkSortRow (p : ℚ) : MatchResult := ⟨0, "600001", "AA", 10, fmtPct p, fmtPct 5, 1⟩

/-! ### Length and indexing lemmas for the EMA pipeline -/

lemma length_ewmFrom (a : ℚ) : ∀ (l : List ℚ) (p : ℚ), (ewmFrom a p l).length = l.length
  | [], _ => rfl
  | x :: xs, p => by simp [ewmFrom, length_ewmFrom a xs]

lemma length_ewmList (s : ℚ) : ∀ l : List ℚ, (ewmList s l).length = l.length
  | [] => rfl
  | x :: xs => by simp [ewmList, length_ewmFrom]

lemma length_difList (l : List ℚ) : (difList l).length = l.length := by
  simp [difList, List.length_zipWith, length_ewmList]

lemma length_deaList (l : List ℚ) : (deaList l).length = l.length := by
  simp [deaList, length_ewmList, length_difList]

lemma ewmFrom_getD_succ (a : ℚ) (l : List ℚ) : ∀ (p : ℚ) (i : Nat), i + 1 < l.length →
    (ewmFrom a p l).getD (i + 1) 0 =
      a * l.getD (i + 1) 0 + (1 - a) * (ewmFrom a p l).getD i 0 := by
  induction l with
  | nil => intro p i h; simp at h
  | cons x xs ih =>
    intro p i h
    cases i with
    | zero =>
      cases xs with
      | nil => simp at h
      | cons y ys => rfl
    | succ k =>
      have hk : k + 1 < xs.length := by simpa using h
      simp only [ewmFrom, List.getD_cons_succ]
      exact ih (a * x + (1 - a) * p) k hk

lemma ewmList_getD_succ (s : ℚ) (l : List ℚ) (i : Nat) (h : i + 1 < l.length) :
    (ewmList s l).getD (i + 1) 0 =
      alphaOf s * l.getD (i + 1) 0 + (1 - alphaOf s) * (ewmList s l).getD i 0 := by
  cases l with
  | nil => simp at h
  | cons x xs =>
    cases i with
    | zero =>
      cases xs with
      | nil => simp at h
      | cons y ys => rfl
    | succ k =>
      have hk : k + 1 < xs.length := by simpa using h
      simp only [ewmList, List.getD_cons_succ]
      exact ewmFrom_getD_succ (alphaOf s) xs x k hk

lemma ewmList_eq_emaSpec (s : ℚ) (l : List ℚ) : ∀ i, i < l.length →
    (ewmList s l).getD i 0 = emaSpec (fun m => l.getD m 0) s i := by
  intro i
  induction i with
  | zero =>
    intro h
    cases l with
    | nil => simp at h
    | cons x xs => rfl
  | succ k ih =>
    intro h
    have hk : k < l.length := Nat.lt_of_succ_lt h
    rw [ewmList_getD_succ s l k h, ih hk]
    rfl

lemma emaSpec_congr (s : ℚ) (x y : Nat → ℚ) : ∀ i, (∀ j, j ≤ i → x j = y j) →
    emaSpec x s i = emaSpec y s i := by
  intro i
  induction i with
  | zero => intro h; simpa [emaSpec] using h 0 (Nat.le_refl 0)
  | succ k ih =>
    intro h
    simp only [emaSpec]
    rw [h (k + 1) (Nat.le_refl _), ih (fun j hj => h j (Nat.le_succ_of_le hj))]

lemma getD_zipWith (f : ℚ → ℚ → ℚ) : ∀ (l1 l2 : List ℚ) (i : Nat), i < l1.length →
    i < l2.length → (List.zipWith f l1 l2).getD i 0 = f (l1.getD i 0) (l2.getD i 0) := by
  intro l1
  induction l1 with
  | nil => intro l2 i h1 h2; simp at h1
  | cons x xs ih =>
    intro l2 i h1 h2
    cases l2 with
    | nil => simp at h2
    | cons y ys =>
      cases i with
      | zero => rfl
      | succ k =>
        simp only [List.zipWith_cons_cons, List.getD_cons_succ]
        exact ih ys k (by simpa using h1) (by simpa using h2)

/-! ### First-occurrence characterisation of the argmax -/

lemma argmaxQ_spec : ∀ (l : List ℚ), l ≠ [] →
    argmaxQ l < l.length ∧
    (∀ j, j < l.length → l.getD j 0 ≤ l.getD (argmaxQ l) 0) ∧
    (∀ k, k < argmaxQ l → l.getD k 0 < l.getD (argmaxQ l) 0) := by
  intro l
  induction l with
  | nil => intro h; exact absurd rfl h
  | cons x xs ih =>
    intro _
    cases xs with
    | nil =>
      refine ⟨by simp [argmaxQ], ?_, ?_⟩
      · intro j hj
        have hj0 : j = 0 := by simpa [argmaxQ] using Nat.lt_one_iff.mp (by simpa using hj)
        subst hj0
        simp [argmaxQ]
      · intro k hk
        simp [argmaxQ] at hk
    | cons y ys =>
      obtain ⟨hlt, hmax, hfirst⟩ := ih (by simp)
      by_cases hc : (y :: ys).getD (argmaxQ (y :: ys)) 0 ≤ x
      · have he : argmaxQ (x :: y :: ys) = 0 := by
          simp only [argmaxQ]
          rw [if_pos hc]
        rw [he]
        refine ⟨by simp, ?_, ?_⟩
        · intro j hj
          cases j with
          | zero => simp
          | succ k =>
            have hk : k < (y :: ys).length := by simpa using hj
            calc (x :: y :: ys).getD (k + 1) 0 = (y :: ys).getD k 0 := by simp
              _ ≤ (y :: ys).getD (argmaxQ (y :: ys)) 0 := hmax k hk
              _ ≤ x := hc
              _ = (x :: y :: ys).getD 0 0 := by simp
        · intro k hk
          exact absurd hk (Nat.not_lt_zero k)
      · have he : argmaxQ (x :: y :: ys) = argmaxQ (y :: ys) + 1 := by
          simp only [argmaxQ]
          rw [if_neg hc]
        have hx : x < (y :: ys).getD (argmaxQ (y :: ys)) 0 := lt_of_not_le hc
        rw [he]
        refine ⟨by simpa using Nat.succ_lt_succ hlt, ?_, ?_⟩
        · intro j hj
          cases j with
          | zero => simpa using le_of_lt hx
          | succ k =>
            have hk : k < (y :: ys).length := by simpa using hj
            simpa using hmax k hk
        · intro k hk
          cases k with
          | zero => simpa using hx
          | succ m =>
            have hm : m < argmaxQ (y :: ys) := by simpa using hk
            simpa using hfirst m hm

/-! ### Window length lemmas -/

lemma length_sunWindow (df : List Bar) (h : 15 ≤ df.length) : (sunWindow df).length = 10 := by
  simp only [sunWindow, List.length_drop]
  omega

lemma length_lookbackVols (df : List Bar) (h : 15 ≤ df.length) :
    (lookbackVols df).length = 9 := by
  simp only [lookbackVols, List.length_map, List.length_dropLast, length_sunWindow df h]

/-! ### Sums and rolling means of nonnegative data -/

lemma listSum_nonneg (l : List ℚ) (h : ∀ x ∈ l, 0 ≤ x) : 0 ≤ listSum l := by
  induction l with
  | nil => simp [listSum]
  | cons x xs ih =>
    simp only [listSum]
    exact add_nonneg (h x (List.mem_cons_self x xs))
      (ih (fun y hy => h y (List.mem_cons_of_mem x hy)))

lemma ma_nonneg {w : Nat} {xs : List ℚ} {i : Nat} {m : ℚ}
    (hxs : ∀ x ∈ xs, 0 ≤ x) (hm : ma w xs i = some m) : 0 ≤ m := by
  unfold ma at hm
  split at hm
  · obtain rfl := Option.some.inj hm
    refine div_nonneg (listSum_nonneg _ ?_) (Nat.cast_nonneg w)
    intro x hx
    exact hxs x (List.drop_subset _ _ (List.take_subset _ _ hx))
  · exact Option.noConfusion hm

/-! ### Eliminating a successful run of the duck-head matcher -/

lemma analyze_logic_some_parts {code : String} {df : List Bar} {r : MatchResult}
    (h : analyze_logic code df = some r) :
    gate2 df = true ∧
    r.level = (if gate3 df then (if gate4 df then "AAA" else "AA") else "A") := by
  unfold analyze_logic at h
  split at h
  · exact Option.noConfusion h
  split at h
  · exact Option.noConfusion h
  split at h
  · exact Option.noConfusion h
  split at h
  · exact Option.noConfusion h
  split at h
  case isTrue hg =>
    obtain rfl := Option.some.inj h
    exact ⟨hg, rfl⟩
  case isFalse _ => exact Option.noConfusion h

/-- C8 (confirmed): the MACD triple computed by the indicator pipeline
equals the reference definition: with `ema` given by the recurrence
`ema[0] = close[0]`, `ema[i] = α·close[i] + (1−α)·ema[i−1]`,
`α = 2/(span+1)`, every index `i` of the series satisfies
`dif[i] = ema(12)[i] − ema(26)[i]`, `dea[i] = ema(dif, 9)[i]` and
`macd[i] = 2·(dif[i] − dea[i])`, defined from index 0 with no warm-up
gap. -/
theorem macd_matches_reference (xs : List ℚ) (i : Nat) (h : i < xs.length) :
    (difList xs).getD i 0 = difSpec (fun m => xs.getD m 0) i ∧
    (deaList xs).getD i 0 = deaSpec (fun m => xs.getD m 0) i ∧
    (macdList xs).getD i 0 = macdSpec (fun m => xs.getD m 0) i := by
  have hdif : ∀ j, j < xs.length →
      (difList xs).getD j 0 = difSpec (fun m => xs.getD m 0) j := by
    intro j hj
    unfold difList difSpec
    rw [getD_zipWith _ _ _ j (by rw [length_ewmList]; exact hj)
          (by rw [length_ewmList]; exact hj),
        ewmList_eq_emaSpec 12 xs j hj, ewmList_eq_emaSpec 26 xs j hj]
  have hdea : (deaList xs).getD i 0 = deaSpec (fun m => xs.getD m 0) i := by
    unfold deaList deaSpec
    rw [ewmList_eq_emaSpec 9 (difList xs) i (by rw [length_difList]; exact h)]
    exact emaSpec_congr 9 _ _ i (fun j hj => hdif j (lt_of_le_of_lt hj h))
  refine ⟨hdif i h, hdea, ?_⟩
  unfold macdList
  rw [getD_zipWith _ _ _ i (by rw [length_difList]; exact h)
        (by rw [length_deaList]; exact h), hdif i h, hdea]
  unfold macdSpec
  ring

/-- C8 witness: the identity instantiated at the concrete series
`[1, 2]` and index 1. -/
theorem macd_matches_reference_witness :
    1 < ([(1 : ℚ), 2]).length ∧
    ((difList [(1 : ℚ), 2]).getD 1 0 = difSpec (fun m => ([(1 : ℚ), 2]).getD m 0) 1 ∧
     (deaList [(1 : ℚ), 2]).getD 1 0 = deaSpec (fun m => ([(1 : ℚ), 2]).getD m 0) 1 ∧
     (macdList [(1 : ℚ), 2]).getD 1 0 = macdSpec (fun m => ([(1 : ℚ), 2]).getD m 0) 1) :=
  ⟨by decide, macd_matches_reference [(1 : ℚ), 2] 1 (by decide)⟩

/-- C5 (confirmed): the accumulation-peak search of the consecutive-sun
matcher is deterministic on ties: whenever two lookback positions `i < j`
both attain the maximum volume of the 9-bar lookback, the selected peak
index is at most `i`, attains the maximum, and every earlier position is
strictly below it — i.e. the peak is the first occurrence of the
maximum. -/
theorem sun_peak_first_occurrence (df : List Bar) (h : 15 ≤ df.length)
    (i j : Nat) (hij : i < j) (hj9 : j < 9)
    (himax : ∀ k, k < 9 → (lookbackVols df).getD k 0 ≤ (lookbackVols df).getD i 0)
    (_htie : (lookbackVols df).getD j 0 = (lookbackVols df).getD i 0) :
    peakIdx df ≤ i ∧
    (lookbackVols df).getD (peakIdx df) 0 = (lookbackVols df).getD i 0 ∧
    (∀ k, k < peakIdx df → (lookbackVols df).getD k 0 < (lookbackVols df).getD i 0) := by
  have hlen := length_lookbackVols df h
  have hne : lookbackVols df ≠ [] := by
    intro he
    rw [he] at hlen
    simp at hlen
  obtain ⟨hlt, hmax, hfirst⟩ := argmaxQ_spec (lookbackVols df) hne
  have hpeq : peakIdx df = argmaxQ (lookbackVols df) := rfl
  rw [hlen] at hlt hmax
  have hpi : (lookbackVols df).getD (peakIdx df) 0 = (lookbackVols df).getD i 0 := by
    rw [hpeq]
    exact le_antisymm (himax _ hlt) (hmax i (by omega))
  refine ⟨?_, hpi, ?_⟩
  · by_contra hcon
    push_neg at hcon
    rw [hpeq] at hcon hpi
    have := hfirst i hcon
    rw [hpi] at this
    exact absurd this (lt_irrefl _)
  · intro k hk
    rw [hpeq] at hk hpi
    have := hfirst k hk
    rwa [hpi] at this

/-- C5 witness: on `tieSun` the lookback volumes attain their maximum at
window indices 2 and 5, and the matcher selects the earlier index 2. -/
theorem sun_peak_first_occurrence_witness :
    (15 ≤ tieSun.length ∧ (2 : Nat) < 5 ∧ (5 : Nat) < 9 ∧
     (∀ k, k < 9 → (lookbackVols tieSun).getD k 0 ≤ (lookbackVols tieSun).getD 2 0) ∧
     (lookbackVols tieSun).getD 5 0 = (lookbackVols tieSun).getD 2 0) ∧
    (peakIdx tieSun ≤ 2 ∧
     (lookbackVols tieSun).getD (peakIdx tieSun) 0 = (lookbackVols tieSun).getD 2 0 ∧
     (∀ k, k < peakIdx tieSun →
       (lookbackVols tieSun).getD k 0 < (lookbackVols tieSun).getD 2 0)) :=
  ⟨⟨by decide, by decide, by decide, by decide, by decide⟩,
   sun_peak_first_occurrence tieSun (by decide) 2 5 (by decide) (by decide)
     (by decide) (by decide)⟩

/-- C2 counterexample: a 15-bar series whose lookback volume peak sits at
window index 8 passes step 2 with `dist = 1`, its peak bar is bullish and
the price band holds, yet the washout zone is empty, so the matcher
reaches the explicit emptiness check and returns no-match there. -/
theorem washZone_empty_dist_one_counterexample :
    15 ≤ cex2Sun.length ∧
    1 ≤ (lookbackVols cex2Sun).length - peakIdx cex2Sun ∧
    (lookbackVols cex2Sun).length - peakIdx cex2Sun ≤ 4 ∧
    priceBandOk cex2Sun = true ∧
    ((sunWindow cex2Sun).getD (peakIdx cex2Sun) default).open_ <
      ((sunWindow cex2Sun).getD (peakIdx cex2Sun) default).close ∧
    washZone cex2Sun = [] ∧
    is_consecutive_sun_model cex2Sun = false := by
  with_unfolding_all decide

/-- C2 (amended): the washout zone is guaranteed non-empty only when the
peak distance is at least 2; every 10-bar window whose step-2 distance
`dist = 9 − p` lies in `[2, 4]` has a non-empty washout zone. -/
theorem washZone_nonempty_of_dist_ge_two (df : List Bar) (h : 15 ≤ df.length)
    (h2 : 2 ≤ (lookbackVols df).length - peakIdx df)
    (h4 : (lookbackVols df).length - peakIdx df ≤ 4) :
    washZone df ≠ [] := by
  have hl := length_lookbackVols df h
  have hw := length_sunWindow df h
  have hlen : (washZone df).length = 10 - (peakIdx df + 1) - 1 := by
    simp only [washZone, List.length_dropLast, List.length_drop, hw]
  intro he
  rw [he] at hlen
  simp only [List.length_nil] at hlen
  omega

/-- C2 witness: on `wit2Sun` the peak is at window index 7 (`dist = 2`)
and the washout zone is non-empty. -/
theorem washZone_nonempty_witness :
    (15 ≤ wit2Sun.length ∧
     2 ≤ (lookbackVols wit2Sun).length - peakIdx wit2Sun ∧
     (lookbackVols wit2Sun).length - peakIdx wit2Sun ≤ 4) ∧
    washZone wit2Sun ≠ [] :=
  ⟨⟨by decide, by decide, by decide⟩,
   washZone_nonempty_of_dist_ge_two wit2Sun (by decide) (by decide) (by decide)⟩

/-- C7 (confirmed): the consecutive-sun price band is inclusive at both
edges: a most recent close of exactly 5 or exactly 20 passes the band
check, while a close of 4.99 or 20.01 makes the matcher return no-match
regardless of the rest of the series. -/
theorem price_band_edges (df : List Bar) (h : 15 ≤ df.length) :
    ((lastClose df = 5 ∨ lastClose df = 20) → priceBandOk df = true) ∧
    ((lastClose df = 499 / 100 ∨ lastClose df = 2001 / 100) →
      is_consecutive_sun_model df = false) := by
  constructor
  · rintro (hc | hc) <;>
      · unfold priceBandOk
        rw [hc]
        with_unfolding_all decide
  · have hlen : ¬ df.length < 15 := by omega
    rintro (hc | hc) <;>
      · have hb : priceBandOk df = false := by
          unfold priceBandOk
          rw [hc]
          with_unfolding_all decide
        unfold is_consecutive_sun_model
        rw [if_neg hlen, hb]
        simp

/-- C7 witness: a series closing at exactly 5 passes the band check and a
series closing at 4.99 is rejected. -/
theorem price_band_edges_witness :
    priceBandOk band5Sun = true ∧ is_consecutive_sun_model band499Sun = false :=
  ⟨(price_band_edges band5Sun (by decide)).1 (Or.inl (by with_unfolding_all rfl)),
   (price_band_edges band499Sun (by decide)).2 (Or.inl (by with_unfolding_all rfl))⟩

/-- C9 (confirmed): insufficient history is a normal no-match: a series
shorter than 15 bars makes the consecutive-sun matcher return `false`,
and a series shorter than 180 bars makes the duck-head matcher return
`none`, in both cases at the initial length guard. -/
theorem insufficient_history_no_match (code : String) (df : List Bar) :
    (df.length < 15 → is_consecutive_sun_model df = false) ∧
    (df.length < 180 → analyze_logic code df = none) := by
  constructor
  · intro h
    unfold is_consecutive_sun_model
    rw [if_pos h]
  · intro h
    unfold analyze_logic
    rw [if_pos h]

/-- C9 witness: a 5-bar series produces `false` and `none`. -/
theorem insufficient_history_no_match_witness :
    is_consecutive_sun_model shortSeries = false ∧
    analyze_logic "600000" shortSeries = none :=
  ⟨(insufficient_history_no_match "600000" shortSeries).1 (by decide),
   (insufficient_history_no_match "600000" shortSeries).2 (by decide)⟩

/-! ### Helper reductions for the optional comparisons -/

lemma optGT_none_right (a : Option ℚ) : optGT a none = false := by cases a <;> rfl

lemma optLE_none_right (a : Option ℚ) : optLE a none = false := by cases a <;> rfl

lemma optGT_some_some (a b : ℚ) : optGT (some a) (some b) = decide (b < a) := rfl

lemma optLE_some_some (a b : ℚ) : optLE (some a) (some b) = decide (a ≤ b) := rfl

/-- C6 (confirmed): tier monotonicity: whenever the duck-head matcher
returns a result of tier AAA, every Gate 2 condition (price above rising
fast averages, volume condition) and every Gate 3 condition (long-term
average and momentum) held for that same final bar; the gates are
strictly additive. -/
theorem tier_AAA_implies_lower_gates (code : String) (df : List Bar) (r : MatchResult)
    (h : analyze_logic code df = some r) (hl : r.level = "AAA") :
    basicTrend df = true ∧ basicSlope df = true ∧ basicVol df = true ∧
    aaTrend df = true ∧ aaMacd df = true := by
  obtain ⟨hg2, hlev⟩ := analyze_logic_some_parts h
  rw [hl] at hlev
  cases hg3 : gate3 df with
  | false =>
    rw [hg3] at hlev
    rw [if_neg (by simp)] at hlev
    exact absurd hlev (by decide)
  | true =>
    have hg3t := hg3
    unfold gate3 at hg3t
    rw [Bool.and_eq_true] at hg3t
    unfold gate2 at hg2
    rw [Bool.and_eq_true, Bool.and_eq_true] at hg2
    exact ⟨hg2.1.1, hg2.1.2, hg2.2, hg3t.1, hg3t.2⟩

/-- C6 witness: `aaaSeries` reaches tier AAA and all five lower-gate
conditions hold on it. -/
theorem tier_AAA_implies_lower_gates_witness :
    analyze_logic "600000" aaaSeries = some aaaResult ∧
    (basicTrend aaaSeries = true ∧ basicSlope aaaSeries = true ∧
     basicVol aaaSeries = true ∧ aaTrend aaaSeries = true ∧ aaMacd aaaSeries = true) :=
  ⟨by with_unfolding_all rfl,
   tier_AAA_implies_lower_gates "600000" aaaSeries aaaResult (by with_unfolding_all rfl) rfl⟩

/-- C1 counterexample: on `cex1Series` the matcher assigns tier AA, yet
`curr.ma60` is not greater than the `ma60` value at index (n−1)−5 = n−6;
the comparison the code actually performs, against index n−5
(`df.iloc[-5]`), does hold. -/
theorem gate3_lookback_counterexample :
    (analyze_logic "600000" cex1Series).map MatchResult.level = some "AA" ∧
    optGT (ma 60 (closesOf cex1Series) (cex1Series.length - 1))
      (ma 60 (closesOf cex1Series) (cex1Series.length - 6)) = false ∧
    optGT (ma 60 (closesOf cex1Series) (cex1Series.length - 1))
      (ma 60 (closesOf cex1Series) (cex1Series.length - 5)) = true := by
  with_unfolding_all decide

/-- C1 (amended): Gate 3 compares `curr.ma60` with the `ma60` value at
pandas position `iloc[-5]`, i.e. index n−5, the bar 4 positions before
the current bar: tier AA (or AAA) is assigned only if that comparison and
the MACD momentum comparison both hold. -/
theorem gate3_compares_iloc_minus5 (code : String) (df : List Bar) (r : MatchResult)
    (h : analyze_logic code df = some r) (hl : r.level = "AA" ∨ r.level = "AAA") :
    optGT (ma 60 (closesOf df) (df.length - 1)) (ma 60 (closesOf df) (df.length - 5)) = true ∧
    macdAt df (df.length - 2) < macdAt df (df.length - 1) := by
  obtain ⟨_, hlev⟩ := analyze_logic_some_parts h
  cases hg3 : gate3 df with
  | false =>
    rw [hg3] at hlev
    rw [if_neg (by simp)] at hlev
    rcases hl with h1 | h1 <;> rw [h1] at hlev <;> exact absurd hlev (by decide)
  | true =>
    have hg3t := hg3
    unfold gate3 at hg3t
    rw [Bool.and_eq_true] at hg3t
    obtain ⟨ht, hm⟩ := hg3t
    unfold aaTrend at ht
    unfold aaMacd at hm
    rw [decide_eq_true_eq] at hm
    exact ⟨ht, hm⟩

/-- C1 witness: the amended Gate 3 conditions hold on `aaaSeries`, whose
tier is AAA. -/
theorem gate3_compares_iloc_minus5_witness :
    analyze_logic "600000" aaaSeries = some aaaResult ∧
    (optGT (ma 60 (closesOf aaaSeries) (aaaSeries.length - 1))
       (ma 60 (closesOf aaaSeries) (aaaSeries.length - 5)) = true ∧
     macdAt aaaSeries (aaaSeries.length - 2) < macdAt aaaSeries (aaaSeries.length - 1)) :=
  ⟨by with_unfolding_all rfl,
   gate3_compares_iloc_minus5 "600000" aaaSeries aaaResult (by with_unfolding_all rfl)
     (Or.inr rfl)⟩

/-- C3 counterexample: on `cex3Series` every Gate 1–3 condition passes
and the Gate 4 conditions computed over the spec's literal windows (the
20 bars ending at the bar before curr for the head, the 10 such bars for
the nostril) hold, together with the above-water condition — yet the
matcher returns tier AA, because its real head window `iloc[-20:-1]`
misses the high spike at index n−21. -/
theorem gate4_window_counterexample :
    (analyze_logic "600000" cex3Series).map MatchResult.level = some "AA" ∧
    specHead cex3Series = true ∧ specNostril cex3Series = true ∧
    aaaWater cex3Series = true := by
  with_unfolding_all decide

/-- C3 (amended): Gate 4's head window is `iloc[-20:-1]`, the 19 bars at
positions n−20 … n−2, and its nostril window is `iloc[-10:-1]`, the 9
bars at positions n−10 … n−2: tier AAA is assigned only if the maximum
high over those 19 bars exceeds `curr.ma60 · 1.08` and the minimum volume
over those 9 bars is below `curr.vol_ma60 · 0.8`. -/
theorem gate4_windows_are_19_and_9 (code : String) (df : List Bar) (r : MatchResult)
    (h : analyze_logic code df = some r) (hl : r.level = "AAA") :
    optGT (maxListQ (((df.drop (df.length - 20)).dropLast).map Bar.high))
      ((ma 60 (closesOf df) (df.length - 1)).map (fun v => v * (27 / 25))) = true ∧
    optLT (minListQ (((df.drop (df.length - 10)).dropLast).map Bar.volume))
      ((ma 60 (volsOf df) (df.length - 1)).map (fun v => v * (4 / 5))) = true := by
  obtain ⟨_, hlev⟩ := analyze_logic_some_parts h
  rw [hl] at hlev
  cases hg3 : gate3 df with
  | false =>
    rw [hg3] at hlev
    rw [if_neg (by simp)] at hlev
    exact absurd hlev (by decide)
  | true =>
    rw [hg3] at hlev
    rw [if_pos rfl] at hlev
    cases hg4 : gate4 df with
    | false =>
      rw [hg4] at hlev
      rw [if_neg (by simp)] at hlev
      exact absurd hlev (by decide)
    | true =>
      have hg4t := hg4
      unfold gate4 at hg4t
      rw [Bool.and_eq_true, Bool.and_eq_true] at hg4t
      have hh := hg4t.1.1
      have hn := hg4t.1.2
      unfold aaaHead at hh
      unfold aaaNostril at hn
      unfold recent20 at hh
      unfold recent10 at hn
      exact ⟨hh, hn⟩

/-- C3 witness: the amended Gate 4 window conditions hold on
`aaaSeries`, whose tier is AAA. -/
theorem gate4_windows_are_19_and_9_witness :
    analyze_logic "600000" aaaSeries = some aaaResult ∧
    (optGT (maxListQ (((aaaSeries.drop (aaaSeries.length - 20)).dropLast).map Bar.high))
       ((ma 60 (closesOf aaaSeries) (aaaSeries.length - 1)).map (fun v => v * (27 / 25))) = true ∧
     optLT (minListQ (((aaaSeries.drop (aaaSeries.length - 10)).dropLast).map Bar.volume))
       ((ma 60 (volsOf aaaSeries) (aaaSeries.length - 1)).map (fun v => v * (4 / 5))) = true) :=
  ⟨by with_unfolding_all rfl,
   gate4_windows_are_19_and_9 "600000" aaaSeries aaaResult (by with_unfolding_all rfl) rfl⟩

/-- C10 (confirmed): for any result of the duck-head matcher on a series
with nonnegative volumes, the unrounded ratio
`curr.volume / curr.vol_ma5` is either strictly above 6/5 or at most 1:
Gate 2's volume disjunction admits only a surge above 1.2× the 5-day
average or a quiet day at or below it. -/
theorem volume_surge_gap (code : String) (df : List Bar) (r : MatchResult)
    (hv : ∀ b ∈ df, 0 ≤ b.volume) (h : analyze_logic code df = some r) :
    6 / 5 < (currBar df).volume / ((ma 5 (volsOf df) (df.length - 1)).getD 0) ∨
    (currBar df).volume / ((ma 5 (volsOf df) (df.length - 1)).getD 0) ≤ 1 := by
  obtain ⟨hg2, _⟩ := analyze_logic_some_parts h
  unfold gate2 at hg2
  rw [Bool.and_eq_true, Bool.and_eq_true] at hg2
  have hbv := hg2.2
  unfold basicVol at hbv
  cases hma : ma 5 (volsOf df) (df.length - 1) with
  | none =>
    rw [hma, Option.map_none'] at hbv
    rw [optGT_none_right, optLE_none_right] at hbv
    simp at hbv
  | some m =>
    rw [hma, Option.map_some'] at hbv
    have hm0 : 0 ≤ m := by
      refine ma_nonneg ?_ hma
      intro x hx
      obtain ⟨b, hb, rfl⟩ := List.mem_map.mp hx
      exact hv b hb
    rcases eq_or_lt_of_le hm0 with hm | hm
    · right
      rw [Option.getD_some, ← hm, div_zero]
      exact zero_le_one
    · rw [Option.getD_some]
      rw [optGT_some_some, optLE_some_some, Bool.or_eq_true, Bool.and_eq_true] at hbv
      rcases hbv with hs | hq
      · left
        have hsv : m * (6 / 5) < (currBar df).volume := of_decide_eq_true hs
        rw [lt_div_iff₀ hm]
        linarith
      · right
        have hle : (currBar df).volume ≤ m := of_decide_eq_true hq.2
        rw [div_le_one hm]
        exact hle

/-- C10 witness: on `aaaSeries` (nonnegative volumes, tier AAA) the
unrounded volume ratio satisfies the gap disjunction. -/
theorem volume_surge_gap_witness :
    (∀ b ∈ aaaSeries, 0 ≤ b.volume) ∧
    (6 / 5 < (currBar aaaSeries).volume /
        ((ma 5 (volsOf aaaSeries) (aaaSeries.length - 1)).getD 0) ∨
     (currBar aaaSeries).volume /
        ((ma 5 (volsOf aaaSeries) (aaaSeries.length - 1)).getD 0) ≤ 1) :=
  ⟨by decide,
   volume_surge_gap "600000" aaaSeries aaaResult (by decide) (by with_unfolding_all rfl)⟩

/-- C4 (code-bug evaluation): the collector sorts the result table on the
formatted `pct_chg` strings, not the numbers: two tier-AA rows with
percent changes 10.0 and 9.5 are ordered with the numerically smaller
9.5 first, because the string "9.5%" is lexicographically greater than
"10.0%". -/
theorem sort_by_pct_string_misorders :
    (mkSortRow 10).level = "AA" ∧ (mkSortRow (19 / 2)).level = "AA" ∧
    (mkSortRow 10).pct_chg = "10.0%" ∧ (mkSortRow (19 / 2)).pct_chg = "9.5%" ∧
    (19 : ℚ) / 2 < 10 ∧
    sortResults [mkSortRow 10, mkSortRow (19 / 2)] =
      [mkSortRow (19 / 2), mkSortRow 10] := by
  with_unfolding_all decide

end Ral
